import Mathlib

/-!
# Verification of the open_AR_Sandbox frame pipeline and module run-loop

Shallow embedding of `sandbox/_sandbox_old/sandbox.py`:

* `CalibrationData` — the calibration record (`CalibrationData.__init__`,
  lines 146-222) with its computed properties and JSON (de)serialization;
* Python slice semantics (`frame[a:-b]`) used by `Module.crop_frame` and
  `Module.crop_frame_workaround`;
* `Module.clip_frame` / `Module.depth_mask` (numpy `clip` / `masked_outside`);
* `Grid.create_empty_depth_grid` / `Grid.update_grid` — the depth-to-model
  coordinate computation;
* the instrumented `GemPyModule.update` pipeline (step traces);
* the threading state machine of `Module` (`run` / `stop` / `pause` /
  `resume` / `thread_loop`).

numpy floating-point arithmetic is modelled as exact rational arithmetic
(`Rat`); the sensor margin and size parameters, which the claims constrain to
be non-negative, are modelled as `Nat`.
-/

namespace ARSandbox

/-- A JSON value as produced by `json.dump` on the calibration `__dict__`:
the entries are strings, non-negative integers (the margin/size attributes),
other numbers, or `null` (for the unset aruco/camera attributes). -/
inductive JValue where
  | jstr (v : String)
  | jnat (v : Nat)
  | jnum (v : Rat)
  | jnull
deriving DecidableEq, Repr

/-- The calibration record, one field per attribute assigned in
`CalibrationData.__init__` (sandbox.py lines 146-222), in assignment order.
Numeric sensor parameters `s_min`/`s_max` and the projector/box numbers are
modelled as `Rat`; the crop margins and sensor resolution, which the claims
take to be non-negative, as `Nat`. -/
structure CalibrationData where
  version : String := "1.1alpha"
  p_width : Rat := 1280
  p_height : Rat := 800
  p_frame_top : Rat := 0
  p_frame_left : Rat := 0
  p_frame_width : Rat := 600
  p_frame_height : Rat := 450
  s_name : String := "generic"
  s_width : Nat := 500
  s_height : Nat := 400
  s_top : Nat := 10
  s_right : Nat := 10
  s_bottom : Nat := 10
  s_left : Nat := 10
  s_min : Rat := 700
  s_max : Rat := 1500
  box_width : Rat := 1000
  box_height : Rat := 800
  aruco_corners : Option String := none
  camera_mtx : Option String := none
  camera_dist : Option String := none
deriving DecidableEq, Repr

namespace CalibrationData

/-- `CalibrationData.s_frame_width` (property, sandbox.py line 227). -/
def s_frame_width (c : CalibrationData) : Nat :=
  c.s_width - c.s_left - c.s_right

/-- `CalibrationData.s_frame_height` (property, sandbox.py line 231). -/
def s_frame_height (c : CalibrationData) : Nat :=
  c.s_height - c.s_top - c.s_bottom

end CalibrationData

/-! ## Python slice semantics

`Module.crop_frame` slices with a negative stop: `frame[a:-b]`.  In Python a
stop of `-b` with `b ≥ 1` denotes index `len - b` (clamped below at 0), but
`-0 == 0`, so `b = 0` denotes stop index `0` and the slice is empty whenever
the start is at or beyond `0` — which is the bug noted in the source's TODO
("Does not work yet for s_top = 0 and s_right = 0, which currently returns an
empty frame!"). -/

/-- Python `xs[a:-b]` on a list: elements from index `a` (inclusive) up to the
stop index (exclusive), where the stop index is `0` when `b = 0` and
`xs.length - b` (truncated subtraction) otherwise. -/
def pySliceNeg (a b : Nat) (xs : List α) : List α :=
  (xs.drop a).take ((if b = 0 then 0 else xs.length - b) - a)

/-- Python `xs[a:]`. -/
def pySliceFrom (a : Nat) (xs : List α) : List α :=
  xs.drop a

namespace Module

/-- `Module.crop_frame` (sandbox.py lines 1964-1972):
`frame[self.calib.s_bottom:-self.calib.s_top, self.calib.s_left:-self.calib.s_right]`.
A 2-d numpy slice drops rows first, then columns of every remaining row. -/
def crop_frame (c : CalibrationData) (frame : List (List α)) : List (List α) :=
  (pySliceNeg c.s_bottom c.s_top frame).map (fun r => pySliceNeg c.s_left c.s_right r)

/-- `Module.crop_frame_workaround` (sandbox.py lines 1974-1985): the branch on
`s_top == 0` / `s_right == 0` replaces each zero negative-stop slice by an
unbounded one. -/
def crop_frame_workaround (c : CalibrationData) (frame : List (List α)) :
    List (List α) :=
  if c.s_top = 0 ∧ c.s_right = 0 then
    (pySliceFrom c.s_bottom frame).map (fun r => pySliceFrom c.s_left r)
  else if c.s_top = 0 then
    (pySliceFrom c.s_bottom frame).map (fun r => pySliceNeg c.s_left c.s_right r)
  else if c.s_right = 0 then
    (pySliceNeg c.s_bottom c.s_top frame).map (fun r => pySliceFrom c.s_left r)
  else
    (pySliceNeg c.s_bottom c.s_top frame).map (fun r => pySliceNeg c.s_left c.s_right r)

/-- `Module.clip_frame` (sandbox.py lines 1987-1993):
`numpy.clip(frame, s_min, s_max)`, elementwise
`min(a_max, max(v, a_min))`. -/
def clip_frame (c : CalibrationData) (frame : List (List Rat)) :
    List (List Rat) :=
  frame.map (List.map (fun v => min c.s_max (max v c.s_min)))

/-- `Module.depth_mask` (sandbox.py lines 1956-1962):
`numpy.ma.getmask(numpy.ma.masked_outside(frame, s_min, s_max))`.
`masked_outside(x, v1, v2)` first sorts the bounds, then masks
`(x < lo) | (x > hi)`; the result here is the boolean mask, `true` for pixels
outside the sensor range. -/
def depth_mask (c : CalibrationData) (frame : List (List Rat)) :
    List (List Bool) :=
  frame.map (List.map (fun v =>
    decide (v < min c.s_min c.s_max) || decide (max c.s_min c.s_max < v)))

end Module

/-- Spec-side description of cropping, following the claim's words: remove
`s_bottom` rows at the start, `s_top` rows at the end, `s_left` columns at the
start and `s_right` columns at the end. -/
def cropSpec (c : CalibrationData) (frame : List (List α)) : List (List α) :=
  (((frame.drop c.s_bottom).take ((frame.drop c.s_bottom).length - c.s_top)).map
    (fun r => (r.drop c.s_left).take ((r.drop c.s_left).length - c.s_right)))

/-- `xs[a:-b]` with a genuinely negative stop (`b ≥ 1`) keeps the elements
from index `a` up to `xs.length - b`. -/
theorem pySliceNeg_of_pos (a b : Nat) (hb : 1 ≤ b) (xs : List α) :
    pySliceNeg a b xs = (xs.drop a).take ((xs.drop a).length - b) := by
  unfold pySliceNeg
  rw [if_neg (by omega), List.length_drop]
  congr 1
  omega

/-- `xs[a:-0]` is empty. -/
theorem pySliceNeg_zero (a : Nat) (xs : List α) :
    pySliceNeg a 0 xs = [] := by
  simp [pySliceNeg]

/-- Helper: with both end margins positive, `crop_frame` agrees with the
spec-side `cropSpec`. -/
theorem crop_frame_eq_cropSpec_of_pos (c : CalibrationData)
    (frame : List (List α)) (htop : 1 ≤ c.s_top) (hright : 1 ≤ c.s_right) :
    Module.crop_frame c frame = cropSpec c frame := by
  unfold Module.crop_frame cropSpec
  simp only [pySliceNeg_of_pos _ _ htop, pySliceNeg_of_pos _ _ hright]

/-- Helper: the row count of `cropSpec` output. -/
theorem cropSpec_length (c : CalibrationData) (frame : List (List α)) :
    (cropSpec c frame).length = frame.length - c.s_bottom - c.s_top := by
  simp only [cropSpec, List.length_map, List.length_take, List.length_drop]
  omega

/-- Helper: the column count of every `cropSpec` output row, provided all
input rows have width `c.s_width`. -/
theorem cropSpec_row_length (c : CalibrationData) (frame : List (List α))
    (hrows : ∀ r ∈ frame, r.length = c.s_width) :
    ∀ r ∈ cropSpec c frame, r.length = c.s_width - c.s_left - c.s_right := by
  intro r hr
  unfold cropSpec at hr
  obtain ⟨r₀, hr₀, rfl⟩ := List.mem_map.1 hr
  have hmem : r₀ ∈ frame :=
    List.drop_subset _ _ (List.take_subset _ _ hr₀)
  simp only [List.length_take, List.length_drop, hrows r₀ hmem]
  omega

/-- **C5** (corrected), counterexample: a calibration with the non-negative
margins `s_top = 0`, `s_right = 1`, `s_bottom = 0`, `s_left = 0` on a 2×2
frame satisfies every hypothesis of the claim (`0 + 0 < 2`, `0 + 1 < 2`), yet
`crop_frame` returns the empty frame instead of the described `(2, 1)`
sub-frame `[[1], [3]]` — the `frame[0:-0]` slice is `frame[0:0]`. -/
theorem crop_frame_zero_margin_empty :
    Module.crop_frame
        { s_top := 0, s_right := 1, s_bottom := 0, s_left := 0,
          s_width := 2, s_height := 2 }
        ([[1, 2], [3, 4]] : List (List Nat)) ≠
      cropSpec
        { s_top := 0, s_right := 1, s_bottom := 0, s_left := 0,
          s_width := 2, s_height := 2 }
        ([[1, 2], [3, 4]] : List (List Nat)) ∧
    Module.crop_frame
        { s_top := 0, s_right := 1, s_bottom := 0, s_left := 0,
          s_width := 2, s_height := 2 }
        ([[1, 2], [3, 4]] : List (List Nat)) = [] ∧
    cropSpec
        { s_top := 0, s_right := 1, s_bottom := 0, s_left := 0,
          s_width := 2, s_height := 2 }
        ([[1, 2], [3, 4]] : List (List Nat)) = [[1], [3]] := by
  refine ⟨by decide, by decide, by decide⟩

/-- **C5** (amended): for margins with `s_top ≥ 1` and `s_right ≥ 1`
(and any `s_bottom`, `s_left ≥ 0`) whose sums stay below the frame
dimensions, `crop_frame` returns exactly the sub-frame obtained by removing
`s_bottom` rows at the start, `s_top` rows at the end, `s_left` columns at
the start and `s_right` columns at the end, of shape
`(s_height - s_top - s_bottom, s_width - s_left - s_right)`. -/
theorem crop_frame_pos_margins (c : CalibrationData) (frame : List (List α))
    (hframe : frame.length = c.s_height)
    (hrows : ∀ r ∈ frame, r.length = c.s_width)
    (htop : 1 ≤ c.s_top) (hright : 1 ≤ c.s_right)
    (hv : c.s_top + c.s_bottom < c.s_height)
    (_hh : c.s_left + c.s_right < c.s_width) :
    Module.crop_frame c frame = cropSpec c frame ∧
    (Module.crop_frame c frame).length = c.s_height - c.s_top - c.s_bottom ∧
    ∀ r ∈ Module.crop_frame c frame,
      r.length = c.s_width - c.s_left - c.s_right := by
  have he := crop_frame_eq_cropSpec_of_pos c frame htop hright
  refine ⟨he, ?_, ?_⟩
  · rw [he, cropSpec_length, hframe]
    omega
  · rw [he]
    exact cropSpec_row_length c frame hrows

/-- Witness for `crop_frame_pos_margins` at a concrete calibration and
frame. -/
theorem crop_frame_pos_margins_witness :
    Module.crop_frame
        { s_top := 1, s_right := 1, s_bottom := 0, s_left := 0,
          s_width := 2, s_height := 2 }
        ([[1, 2], [3, 4]] : List (List Nat)) =
      cropSpec
        { s_top := 1, s_right := 1, s_bottom := 0, s_left := 0,
          s_width := 2, s_height := 2 }
        ([[1, 2], [3, 4]] : List (List Nat)) ∧
    (Module.crop_frame
        { s_top := 1, s_right := 1, s_bottom := 0, s_left := 0,
          s_width := 2, s_height := 2 }
        ([[1, 2], [3, 4]] : List (List Nat))).length = 2 - 1 - 0 ∧
    ∀ r ∈ Module.crop_frame
        { s_top := 1, s_right := 1, s_bottom := 0, s_left := 0,
          s_width := 2, s_height := 2 }
        ([[1, 2], [3, 4]] : List (List Nat)), r.length = 2 - 0 - 1 :=
  crop_frame_pos_margins _ _ (by decide) (by decide) (by decide) (by decide)
    (by decide) (by decide)

/-- **C9** (confirmed): `crop_frame_workaround` agrees with `crop_frame`
whenever `s_top > 0` and `s_right > 0`; in all cases it returns the
correctly cropped sub-frame (it removes only the non-zero margins), and the
result is non-empty whenever the vertical margins leave at least one row. -/
theorem crop_frame_workaround_correct (c : CalibrationData)
    (frame : List (List α)) :
    (1 ≤ c.s_top → 1 ≤ c.s_right →
      Module.crop_frame_workaround c frame = Module.crop_frame c frame) ∧
    Module.crop_frame_workaround c frame = cropSpec c frame ∧
    (c.s_bottom + c.s_top < frame.length →
      Module.crop_frame_workaround c frame ≠ []) := by
  have hspec : Module.crop_frame_workaround c frame = cropSpec c frame := by
    unfold Module.crop_frame_workaround cropSpec pySliceFrom
    rcases Nat.eq_zero_or_pos c.s_top with ht | ht <;>
      rcases Nat.eq_zero_or_pos c.s_right with hr | hr
    · rw [if_pos ⟨ht, hr⟩, ht, hr]
      simp only [Nat.sub_zero, List.take_length]
    · rw [if_neg (by omega), if_pos ht, ht]
      simp only [pySliceNeg_of_pos _ _ hr, Nat.sub_zero, List.take_length]
    · rw [if_neg (by omega), if_neg (by omega), if_pos hr, hr]
      simp only [pySliceNeg_of_pos _ _ ht, Nat.sub_zero, List.take_length]
    · rw [if_neg (by omega), if_neg (by omega), if_neg (by omega)]
      simp only [pySliceNeg_of_pos _ _ ht, pySliceNeg_of_pos _ _ hr]
  refine ⟨?_, hspec, ?_⟩
  · intro htop hright
    rw [hspec, crop_frame_eq_cropSpec_of_pos c frame htop hright]
  · intro hlt hnil
    have := cropSpec_length c frame
    rw [← hspec, hnil] at this
    simp only [List.length_nil] at this
    omega

/-- Witness for `crop_frame_workaround_correct` at a concrete calibration
and frame. -/
theorem crop_frame_workaround_correct_witness :
    Module.crop_frame_workaround
        { s_top := 1, s_right := 1, s_bottom := 0, s_left := 1,
          s_width := 3, s_height := 2 }
        ([[1, 2, 3], [4, 5, 6]] : List (List Nat)) =
      Module.crop_frame
        { s_top := 1, s_right := 1, s_bottom := 0, s_left := 1,
          s_width := 3, s_height := 2 }
        ([[1, 2, 3], [4, 5, 6]] : List (List Nat)) ∧
    Module.crop_frame_workaround
        { s_top := 1, s_right := 1, s_bottom := 0, s_left := 1,
          s_width := 3, s_height := 2 }
        ([[1, 2, 3], [4, 5, 6]] : List (List Nat)) =
      cropSpec
        { s_top := 1, s_right := 1, s_bottom := 0, s_left := 1,
          s_width := 3, s_height := 2 }
        ([[1, 2, 3], [4, 5, 6]] : List (List Nat)) ∧
    Module.crop_frame_workaround
        { s_top := 1, s_right := 1, s_bottom := 0, s_left := 1,
          s_width := 3, s_height := 2 }
        ([[1, 2, 3], [4, 5, 6]] : List (List Nat)) ≠ [] :=
  ⟨(crop_frame_workaround_correct _ _).1 (by decide) (by decide),
   (crop_frame_workaround_correct _ _).2.1,
   (crop_frame_workaround_correct _ _).2.2 (by decide)⟩

/-- **C10** (confirmed): whenever `s_min ≤ s_max`, masking after clipping is
vacuous — `depth_mask (clip_frame frame)` marks no pixel, since clipping
forces every value into `[s_min, s_max]`. -/
theorem mask_after_clip_vacuous (c : CalibrationData)
    (frame : List (List Rat)) (h : c.s_min ≤ c.s_max) :
    Module.depth_mask c (Module.clip_frame c frame) =
      frame.map (fun r => r.map fun _ => false) := by
  unfold Module.depth_mask Module.clip_frame
  simp only [List.map_map]
  have hfun : ∀ v : Rat,
      (decide (min c.s_max (max v c.s_min) < min c.s_min c.s_max) ||
        decide (max c.s_min c.s_max < min c.s_max (max v c.s_min))) = false := by
    intro v
    rw [min_eq_left h, max_eq_right h]
    simp only [Bool.or_eq_false_iff, decide_eq_false_iff_not, not_lt]
    exact ⟨le_min h (le_max_right v c.s_min), min_le_left _ _⟩
  simp only [List.map_map, Function.comp_def, hfun]

/-- Witness for `mask_after_clip_vacuous` at the default calibration
(`s_min = 700 ≤ 1500 = s_max`) and a frame with one value below and one
above range. -/
theorem mask_after_clip_vacuous_witness :
    Module.depth_mask {} (Module.clip_frame {} [[600, 2000]]) =
      ([[(600 : Rat), 2000]]).map (fun r => r.map fun _ => false) :=
  mask_after_clip_vacuous {} [[600, 2000]] (by norm_num)

/-! ## Grid: depth-to-model coordinate lookup

`Scale` (sandbox.py lines 1503-1560) stores the model extent (default
`[0, box_width, 0, box_height, s_min, s_max]`, or a custom 6-entry array) and
exposes `output_res = (s_frame_width, s_frame_height)`.  `Grid` (lines
1640-1712) precomputes the XY grid and, per frame, the Z coordinate. -/

/-- `Scale.__init__` state: the calibration and the 6-entry `extent` array.
Index accesses `extent[i]` are modelled by `List.getD` (the list always has
6 entries in the source). -/
structure Scale where
  calibration : CalibrationData
  extent : List Rat
deriving DecidableEq, Repr

namespace Scale

/-- The default extent from `Scale.__init__` when none is given:
`[0, box_width, 0, box_height, s_min, s_max]`. -/
def default_extent (c : CalibrationData) : List Rat :=
  [0, c.box_width, 0, c.box_height, c.s_min, c.s_max]

/-- `Scale.output_res` (property): the dimensions of the cropped frame,
`(s_frame_width, s_frame_height)`. -/
def output_res (s : Scale) : Nat × Nat :=
  (s.calibration.s_frame_width, s.calibration.s_frame_height)

end Scale

/-- `numpy.linspace(a, b, num)` with `endpoint=True`, in exact arithmetic:
`num` evenly spaced samples from `a` to `b`.  (`Rat` division by zero is `0`,
which reproduces numpy's special-casing of `num = 1` to `[a]`.) -/
def linspace (a b : Rat) (num : Nat) : List Rat :=
  (List.range num).map (fun k => a + (k : Rat) * (b - a) / ((num : Rat) - 1))

/-- `Grid.__init__` state (sandbox.py lines 1649-1673): both grids start as
`None`. -/
structure Grid where
  calibration : CalibrationData
  scale : Scale
  depth_grid : Option (List (Rat × Rat × Rat)) := none
  empty_depth_grid : Option (List (Rat × Rat)) := none
deriving DecidableEq, Repr

namespace Grid

/-- `Grid.create_empty_depth_grid` (sandbox.py lines 1675-1691):
`meshgrid` of `linspace(extent[0], extent[1], output_res[0])` and
`linspace(extent[2], extent[3], output_res[1])`, ravelled row-major and
stacked into (x, y) pairs. -/
def create_empty_depth_grid (g : Grid) : Grid :=
  let width := linspace (g.scale.extent.getD 0 0) (g.scale.extent.getD 1 0)
    g.scale.output_res.1
  let height := linspace (g.scale.extent.getD 2 0) (g.scale.extent.getD 3 0)
    g.scale.output_res.2
  { g with empty_depth_grid := some (height.flatMap (fun y => width.map (fun x => (x, y)))) }

/-- The value `update_grid` computes into its local variable `depth_grid`
(sandbox.py lines 1706-1712): the scaled Z coordinate
`extent[5] - (d - s_min) / (s_max - s_min) * (extent[5] - extent[4])`,
ravelled and column-stacked (`numpy.c_`) onto the precomputed XY grid. -/
def update_grid_local (g : Grid) (cropped_frame : List (List Rat)) :
    List (Rat × Rat × Rat) :=
  let scaled_frame := cropped_frame.map (List.map (fun d =>
    g.scale.extent.getD 5 0 -
      ((d - g.calibration.s_min) /
        (g.calibration.s_max - g.calibration.s_min) *
        (g.scale.extent.getD 5 0 - g.scale.extent.getD 4 0))))
  let flattened_depth := scaled_frame.flatten
  ((g.empty_depth_grid.getD []).zip flattened_depth).map
    (fun p => (p.1.1, p.1.2, p.2))

/-- `Grid.update_grid` (sandbox.py lines 1693-1712) as a state transformer.
The method computes the column-stacked grid into the local variable
`depth_grid` and then ends: `self.depth_grid` is never assigned (the method
body stops at line 1712), so the instance state is returned unchanged. -/
def update_grid (g : Grid) (cropped_frame : List (List Rat)) : Grid :=
  let _depth_grid := g.update_grid_local cropped_frame
  g

end Grid

/-- **C3** (code bug): at a concrete calibration (`s_min = 700`,
`s_max = 1500`, cropped resolution 2×2), extent `[0, 1000, 0, 800, 0, 300]`
and cropped frame `[[700, 1500], [1100, 700]]`, the triples the claim (and
the method's own docstring, and the caller `GemPyModule.update` reading
`self.grid.depth_grid`) require are exactly what `update_grid` computes into
its local variable — `z = extent[5] = 300` at `d = s_min` and
`z = extent[4] = 0` at `d = s_max` — but `update_grid` never stores them:
`depth_grid` remains `None`. -/
theorem update_grid_discards_depth_grid :
    (Grid.update_grid
        (Grid.create_empty_depth_grid
          { calibration :=
              { s_min := 700, s_max := 1500, s_width := 4, s_height := 4,
                s_top := 1, s_bottom := 1, s_left := 1, s_right := 1 },
            scale :=
              { calibration :=
                  { s_min := 700, s_max := 1500, s_width := 4, s_height := 4,
                    s_top := 1, s_bottom := 1, s_left := 1, s_right := 1 },
                extent := [0, 1000, 0, 800, 0, 300] } })
        [[700, 1500], [1100, 700]]).depth_grid = none ∧
    Grid.update_grid_local
        (Grid.create_empty_depth_grid
          { calibration :=
              { s_min := 700, s_max := 1500, s_width := 4, s_height := 4,
                s_top := 1, s_bottom := 1, s_left := 1, s_right := 1 },
            scale :=
              { calibration :=
                  { s_min := 700, s_max := 1500, s_width := 4, s_height := 4,
                    s_top := 1, s_bottom := 1, s_left := 1, s_right := 1 },
                extent := [0, 1000, 0, 800, 0, 300] } })
        [[700, 1500], [1100, 700]] =
      [(0, 0, 300), (1000, 0, 0), (0, 800, 150), (1000, 800, 300)] := by
  refine ⟨rfl, ?_⟩
  norm_num [Grid.update_grid_local, Grid.create_empty_depth_grid, linspace,
    Scale.output_res, CalibrationData.s_frame_width,
    CalibrationData.s_frame_height, List.range_succ]

/-! ## The GemPyModule update pipeline, instrumented with step traces

`GemPyModule.update` (sandbox.py lines 3242-3248) performs, on the fetched
frame: `crop_frame`, then `clip_frame` (both under `if self.crop:`), then
`grid.update_grid` — whose body scales the depth values (line 1706) and
column-stacks them onto the XY grid (line 1712, the coordinate lookup).
Each primitive is paired with the labels of the transformation steps it
performs, and the composition follows the source statement order. -/

/-- The five step labels the spec names for the frame geometry
transformation. -/
inductive PipeStep where
  | crop
  | clip
  | mask
  | scale
  | lookup
deriving DecidableEq, Repr

namespace Module

/-- `crop_frame`, instrumented. -/
def cropT (c : CalibrationData) (f : List (List Rat)) :
    List (List Rat) × List PipeStep :=
  (crop_frame c f, [PipeStep.crop])

/-- `clip_frame`, instrumented. -/
def clipT (c : CalibrationData) (f : List (List Rat)) :
    List (List Rat) × List PipeStep :=
  (clip_frame c f, [PipeStep.clip])

/-- `depth_mask`, instrumented (not called by `GemPyModule.update`). -/
def maskT (c : CalibrationData) (f : List (List Rat)) :
    List (List Bool) × List PipeStep :=
  (depth_mask c f, [PipeStep.mask])

end Module

/-- `Grid.update_grid`, instrumented: its body performs the scaling
(line 1706) followed by the coordinate lookup / column stack (line 1712). -/
def Grid.update_gridT (g : Grid) (f : List (List Rat)) :
    Grid × List PipeStep :=
  (Grid.update_grid g f, [PipeStep.scale, PipeStep.lookup])

/-- `GemPyModule.update` (sandbox.py lines 3242-3248), restricted to its
frame-geometry statements and instrumented: `crop_frame` and `clip_frame`
under the `crop` flag, then `update_grid`. -/
def GemPyModule.updateT (crop : Bool) (c : CalibrationData) (g : Grid)
    (frame : List (List Rat)) : Grid × List PipeStep :=
  let fr1 := if crop then
      let p1 := Module.cropT c frame
      let p2 := Module.clipT c p1.1
      (p2.1, p1.2 ++ p2.2)
    else (frame, [])
  let p3 := Grid.update_gridT g fr1.1
  (p3.1, fr1.2 ++ p3.2)

/-- **C2** (corrected), counterexample: the step trace of
`GemPyModule.update` with cropping enabled is not
`[crop, clip, mask, scale, lookup]` — no mask step occurs (at the default
calibration, an empty-extent grid and the frame `[[800]]`). -/
theorem gemPy_update_no_mask_step :
    (GemPyModule.updateT true {}
        { calibration := {}, scale := { calibration := {}, extent := [] } }
        [[800]]).2 ≠
      [PipeStep.crop, PipeStep.clip, PipeStep.mask, PipeStep.scale,
        PipeStep.lookup] := by
  decide

/-- **C2** (amended): for every frame update of `GemPyModule` with cropping
enabled, the frame geometry transformation applies its steps in the order
crop, then clip, then scale, then depth-to-model coordinate lookup (no mask
step); the resulting state is `update_grid` applied to the clipped, cropped
frame.  Without cropping only the scale and lookup steps run. -/
theorem gemPy_update_step_order (c : CalibrationData) (g : Grid)
    (frame : List (List Rat)) :
    (GemPyModule.updateT true c g frame).2 =
      [PipeStep.crop, PipeStep.clip, PipeStep.scale, PipeStep.lookup] ∧
    (GemPyModule.updateT true c g frame).1 =
      Grid.update_grid g (Module.clip_frame c (Module.crop_frame c frame)) ∧
    (GemPyModule.updateT false c g frame).2 =
      [PipeStep.scale, PipeStep.lookup] :=
  ⟨rfl, rfl, rfl⟩

/-! ## The Module worker thread

`Module.__init__` (sandbox.py lines 1887-1900) creates one
`threading.Lock`, sets `thread = None` and `thread_status = 'stopped'`.
`thread_loop` (lines 1919-1923) loops `while thread_status == 'running'`,
executing `lock.acquire(); update(); lock.release()` per iteration.
`run` / `stop` / `pause` / `resume` (lines 1925-1954) manage the status flag
and the worker thread. -/

/-- The observable events of one `thread_loop` execution. -/
inductive LoopEvent where
  | acquire
  | update
  | release
deriving DecidableEq, Repr

namespace Module

/-- The event trace of `thread_loop` while `thread_status` stays
`'running'` for `n` loop iterations: each iteration is the statement
sequence `lock.acquire(); self.update(); self.lock.release()`
(sandbox.py lines 1919-1923). -/
def thread_loop_trace : Nat → List LoopEvent
  | 0 => []
  | n + 1 =>
      [LoopEvent.acquire, LoopEvent.update, LoopEvent.release] ++
        thread_loop_trace n

/-- Whether the single lock is held after processing a trace (initially
free). -/
def lockHeld (s : Bool) : List LoopEvent → Bool
  | [] => s
  | LoopEvent.acquire :: t => lockHeld true t
  | LoopEvent.release :: t => lockHeld false t
  | LoopEvent.update :: t => lockHeld s t

/-- Every `update` event of the trace happens while the lock is held
(given it starts in state `s`). -/
def updatesLocked (s : Bool) : List LoopEvent → Bool
  | [] => true
  | LoopEvent.acquire :: t => updatesLocked true t
  | LoopEvent.release :: t => updatesLocked false t
  | LoopEvent.update :: t => s && updatesLocked s t

end Module

/-- **C1** (confirmed): over `n` iterations of `thread_loop` the trace
contains exactly `n` `update` events (one per iteration), every `update`
happens between an `acquire` and a `release` (the lock is held at each
`update`), and after every complete iteration — in particular between
consecutive iterations — the lock is free again. -/
theorem thread_loop_update_locked (n : Nat) :
    (Module.thread_loop_trace n).count LoopEvent.update = n ∧
    Module.updatesLocked false (Module.thread_loop_trace n) = true ∧
    Module.lockHeld false (Module.thread_loop_trace n) = false := by
  induction n with
  | zero => exact ⟨rfl, rfl, rfl⟩
  | succ n ih =>
      obtain ⟨h1, h2, h3⟩ := ih
      refine ⟨?_, ?_, ?_⟩
      · simp only [Module.thread_loop_trace, List.cons_append,
          List.nil_append, List.count_cons, h1]
        simp
      · simpa only [Module.thread_loop_trace, List.cons_append,
          List.nil_append, Module.updatesLocked, Bool.true_and] using h2
      · simpa only [Module.thread_loop_trace, List.cons_append,
          List.nil_append, Module.lockHeld] using h3

/-! ### The run / stop / pause / resume state machine

The threading state is the status flag together with the number of live
worker threads executing `thread_loop`.  `run` starts a fresh thread when
the status is not `'running'`; `stop` and `pause` flip the flag (which makes
the loop exit) and `join` the thread, so after they return no worker thread
is alive. -/

/-- `Module.thread_status` values. -/
inductive ThreadStatus where
  | stopped
  | running
  | paused
deriving DecidableEq, Repr

/-- Threading state of a `Module`: the status flag and the number of live
worker threads executing `thread_loop`. -/
structure ThreadState where
  status : ThreadStatus
  live : Nat
deriving DecidableEq, Repr

namespace Module

/-- The state after `Module.__init__` (sandbox.py lines 1897-1899):
`thread = None`, `thread_status = 'stopped'`. -/
def initState : ThreadState :=
  { status := ThreadStatus.stopped, live := 0 }

/-- `Module.run` (sandbox.py lines 1925-1932): if the status is not
`'running'`, set it to `'running'` and start a new worker thread; otherwise
only print. -/
def run (s : ThreadState) : ThreadState :=
  if s.status ≠ ThreadStatus.running then
    { status := ThreadStatus.running, live := s.live + 1 }
  else s

/-- `Module.stop` (sandbox.py lines 1934-1940): if the status is not
`'stopped'`, set it to `'stopped'` — which makes `thread_loop` exit — and
`join` the worker thread, so no worker thread survives the call; otherwise
only print. -/
def stop (s : ThreadState) : ThreadState :=
  if s.status ≠ ThreadStatus.stopped then
    { status := ThreadStatus.stopped, live := 0 }
  else s

/-- `Module.pause` (sandbox.py lines 1942-1948): if the status is
`'running'`, set it to `'paused'` — which makes `thread_loop` exit — and
`join` the worker thread; otherwise only print. -/
def pause (s : ThreadState) : ThreadState :=
  if s.status = ThreadStatus.running then
    { status := ThreadStatus.paused, live := 0 }
  else s

/-- `Module.resume` (sandbox.py lines 1950-1954): if the status is not
`'stopped'`, delegate to `run`; otherwise only print. -/
def resume (s : ThreadState) : ThreadState :=
  if s.status ≠ ThreadStatus.stopped then run s else s

end Module

/-- The threading states reachable from the freshly constructed module by
any sequence of `run` / `stop` / `pause` / `resume` calls. -/
inductive ReachableState : ThreadState → Prop where
  | init : ReachableState Module.initState
  | runStep {s} : ReachableState s → ReachableState (Module.run s)
  | stopStep {s} : ReachableState s → ReachableState (Module.stop s)
  | pauseStep {s} : ReachableState s → ReachableState (Module.pause s)
  | resumeStep {s} : ReachableState s → ReachableState (Module.resume s)

/-- Helper: in every reachable state there is exactly one live worker
thread when the status is `'running'` and none otherwise. -/
theorem reachable_live_eq (s : ThreadState) (h : ReachableState s) :
    s.live = if s.status = ThreadStatus.running then 1 else 0 := by
  induction h with
  | init => rfl
  | @runStep s _ ih =>
      cases hst : s.status <;> simp [Module.run, hst] at ih ⊢ <;> omega
  | @stopStep s _ ih =>
      cases hst : s.status <;> simp [Module.stop, hst] at ih ⊢ <;> omega
  | @pauseStep s _ ih =>
      cases hst : s.status <;> simp [Module.pause, hst] at ih ⊢ <;> omega
  | @resumeStep s _ ih =>
      cases hst : s.status <;>
        simp [Module.resume, Module.run, hst] at ih ⊢ <;> omega

/-- **C4** (confirmed): calling `pause` on a running module sets the status
to `'paused'` and joins the worker thread (no thread survives, so no
further `update` runs); a subsequent `resume` restarts by creating one new
worker thread; and `resume` on a stopped module starts no thread and leaves
the state unchanged. -/
theorem pause_resume_semantics (s : ThreadState) :
    (s.status = ThreadStatus.running →
      Module.pause s =
        { status := ThreadStatus.paused, live := 0 } ∧
      Module.resume (Module.pause s) =
        { status := ThreadStatus.running, live := 1 }) ∧
    (s.status = ThreadStatus.stopped → Module.resume s = s) := by
  constructor
  · intro hrun
    constructor
    · simp [Module.pause, hrun]
    · simp [Module.pause, Module.resume, Module.run, hrun]
  · intro hstop
    simp [Module.resume, hstop]

/-- Witness for `pause_resume_semantics`: the running single-thread state
and the initial stopped state. -/
theorem pause_resume_semantics_witness :
    (Module.pause { status := ThreadStatus.running, live := 1 } =
        { status := ThreadStatus.paused, live := 0 } ∧
      Module.resume
          (Module.pause { status := ThreadStatus.running, live := 1 }) =
        { status := ThreadStatus.running, live := 1 }) ∧
    Module.resume { status := ThreadStatus.stopped, live := 0 } =
      { status := ThreadStatus.stopped, live := 0 } :=
  ⟨(pause_resume_semantics { status := ThreadStatus.running, live := 1 }).1
      rfl,
   (pause_resume_semantics { status := ThreadStatus.stopped, live := 0 }).2
      rfl⟩

/-- **C6** (confirmed): every module has at most one worker thread — in
every reachable threading state at most one thread executing `thread_loop`
is alive; `run` on an already-running module changes nothing; and `stop`
always, and `pause` on a running module, join the worker thread so that
none survives the call. -/
theorem single_worker_thread_invariant (s : ThreadState)
    (h : ReachableState s) :
    s.live ≤ 1 ∧
    (s.status = ThreadStatus.running → Module.run s = s) ∧
    (Module.stop s).live = 0 ∧
    (s.status = ThreadStatus.running → (Module.pause s).live = 0) := by
  have hlive := reachable_live_eq s h
  refine ⟨?_, ?_, ?_, ?_⟩
  · rw [hlive]
    split <;> omega
  · intro hrun
    simp [Module.run, hrun]
  · unfold Module.stop
    split
    · rfl
    · next hc =>
        simp only [ne_eq, not_not] at hc
        rw [hlive, hc]
        rfl
  · intro hrun
    simp [Module.pause, hrun]

/-- Witness for `single_worker_thread_invariant`: one `run` call after
construction reaches the running state with a single worker thread. -/
theorem single_worker_thread_invariant_witness :
    (Module.run Module.initState).live ≤ 1 ∧
    ((Module.run Module.initState).status = ThreadStatus.running →
      Module.run (Module.run Module.initState) = Module.run Module.initState) ∧
    (Module.stop (Module.run Module.initState)).live = 0 ∧
    ((Module.run Module.initState).status = ThreadStatus.running →
      (Module.pause (Module.run Module.initState)).live = 0) :=
  single_worker_thread_invariant (Module.run Module.initState)
    (ReachableState.runStep ReachableState.init)

/-! ## JSON serialization of the calibration

`CalibrationData.save_json` (sandbox.py lines 249-252) dumps `self.__dict__`
as a JSON object — one key-value entry per attribute, in assignment order.
`CalibrationData.load_json` (lines 240-247) parses the file and, only when
the `'version'` entry equals the instance's version, replaces the instance's
`__dict__` wholesale; otherwise it prints and changes nothing.  Integer
attributes serialize as JSON integers (`jnat`), floats as numbers (`jnum`),
the unset aruco/camera attributes as `null`. -/

/-- Serialize an optional attribute: Python `None` becomes JSON `null`. -/
def optToJ : Option String → JValue
  | none => JValue.jnull
  | some s => JValue.jstr s

/-- Parse an optional attribute back. -/
def jToOpt : JValue → Option (Option String)
  | JValue.jnull => some none
  | JValue.jstr s => some (some s)
  | _ => none

namespace CalibrationData

/-- `CalibrationData.save_json`: the serialized `__dict__`, one entry per
attribute in assignment order. -/
def save_json (c : CalibrationData) : List (String × JValue) :=
  [("version", JValue.jstr c.version),
   ("p_width", JValue.jnum c.p_width),
   ("p_height", JValue.jnum c.p_height),
   ("p_frame_top", JValue.jnum c.p_frame_top),
   ("p_frame_left", JValue.jnum c.p_frame_left),
   ("p_frame_width", JValue.jnum c.p_frame_width),
   ("p_frame_height", JValue.jnum c.p_frame_height),
   ("s_name", JValue.jstr c.s_name),
   ("s_width", JValue.jnat c.s_width),
   ("s_height", JValue.jnat c.s_height),
   ("s_top", JValue.jnat c.s_top),
   ("s_right", JValue.jnat c.s_right),
   ("s_bottom", JValue.jnat c.s_bottom),
   ("s_left", JValue.jnat c.s_left),
   ("s_min", JValue.jnum c.s_min),
   ("s_max", JValue.jnum c.s_max),
   ("box_width", JValue.jnum c.box_width),
   ("box_height", JValue.jnum c.box_height),
   ("aruco_corners", optToJ c.aruco_corners),
   ("camera_mtx", optToJ c.camera_mtx),
   ("camera_dist", optToJ c.camera_dist)]

end CalibrationData

/-- Reading a serialized calibration `__dict__` back into a
`CalibrationData` record (the effect of `self.__dict__ = data` on a dict of
the saved shape); `none` when the dict does not have the saved shape. -/
def parse_calib_dict (d : List (String × JValue)) : Option CalibrationData :=
  match d with
  | [("version", JValue.jstr v), ("p_width", JValue.jnum pw),
     ("p_height", JValue.jnum ph), ("p_frame_top", JValue.jnum pft),
     ("p_frame_left", JValue.jnum pfl), ("p_frame_width", JValue.jnum pfw),
     ("p_frame_height", JValue.jnum pfh), ("s_name", JValue.jstr sn),
     ("s_width", JValue.jnat sw), ("s_height", JValue.jnat sh),
     ("s_top", JValue.jnat st), ("s_right", JValue.jnat sr),
     ("s_bottom", JValue.jnat sb), ("s_left", JValue.jnat sl),
     ("s_min", JValue.jnum smin), ("s_max", JValue.jnum smax),
     ("box_width", JValue.jnum bw), ("box_height", JValue.jnum bh),
     ("aruco_corners", ac), ("camera_mtx", cm), ("camera_dist", cd)] =>
      match jToOpt ac, jToOpt cm, jToOpt cd with
      | some ac', some cm', some cd' =>
          some ⟨v, pw, ph, pft, pfl, pfw, pfh, sn, sw, sh, st, sr, sb, sl,
            smin, smax, bw, bh, ac', cm', cd'⟩
      | _, _, _ => none
  | _ => none

namespace CalibrationData

/-- `CalibrationData.load_json` (sandbox.py lines 240-247): parse the file,
compare its `'version'` entry with the instance's version, and replace the
whole instance state only on a match. -/
def load_json (data : List (String × JValue)) (self : CalibrationData) :
    CalibrationData :=
  if data.lookup "version" = some (JValue.jstr self.version) then
    (parse_calib_dict data).getD self
  else self

end CalibrationData

set_option maxHeartbeats 2000000 in
/-- Helper: parsing a saved calibration recovers the record exactly. -/
theorem parse_calib_dict_save (c : CalibrationData) :
    parse_calib_dict (CalibrationData.save_json c) = some c := by
  obtain ⟨v, pw, ph, pft, pfl, pfw, pfh, sn, sw, sh, st, sr, sb, sl, smin,
    smax, bw, bh, ac, cm, cd⟩ := c
  cases ac <;> cases cm <;> cases cd <;> rfl

/-- **C7** (confirmed): `save_json` followed by `load_json` on an instance
with the same version string restores every calibration attribute, and
`load_json` of a file whose `'version'` entry differs from the instance's
version leaves every attribute unchanged. -/
theorem calibration_json_round_trip (c self : CalibrationData) :
    (self.version = c.version →
      CalibrationData.load_json (CalibrationData.save_json c) self = c) ∧
    (self.version ≠ c.version →
      CalibrationData.load_json (CalibrationData.save_json c) self = self) := by
  have hlookup : (CalibrationData.save_json c).lookup "version" =
      some (JValue.jstr c.version) := rfl
  constructor
  · intro hv
    unfold CalibrationData.load_json
    rw [if_pos (by rw [hlookup, hv]), parse_calib_dict_save]
    rfl
  · intro hv
    unfold CalibrationData.load_json
    rw [if_neg]
    rw [hlookup]
    intro hcontra
    exact hv (by injection (Option.some.inj hcontra) with h; exact h.symm)

/-- Witness for `calibration_json_round_trip`: the default calibration
round-trips, and an instance carrying the older version string `"0.9alpha"`
ignores the saved file. -/
theorem calibration_json_round_trip_witness :
    CalibrationData.load_json (CalibrationData.save_json {}) {} =
      ({} : CalibrationData) ∧
    CalibrationData.load_json (CalibrationData.save_json {})
        { version := "0.9alpha" } =
      ({ version := "0.9alpha" } : CalibrationData) :=
  ⟨(calibration_json_round_trip {} {}).1 rfl,
   (calibration_json_round_trip {} { version := "0.9alpha" }).2 (by decide)⟩

/-! ## The old Calibration class: pickle load

`Calibration.load` (sandbox.py lines 707-713) runs
`self.calibration_data = pickle.load(open(calibration_file, 'rb'))` inside
`try/except OSError`.  When the file cannot be opened, `open` raises a
subclass of `OSError` (e.g. `FileNotFoundError`, `PermissionError`), the
assignment never executes, the handler prints, and no exception escapes —
modelled as a total function on an explicit file system
`fs : String → Option δ`, returning the new state and the printed lines. -/

/-- The state of the old `Calibration` object that `load` touches, over an
abstract pickled-payload type `δ`. -/
structure Calibration (δ : Type) where
  calibration_file : String
  calibration_data : δ
deriving DecidableEq, Repr

/-- `Calibration.load` (sandbox.py lines 707-713): default the path to
`self.calibration_file`, then try to open and unpickle; on an open error
print `"calibration data file not found"` and leave the state unchanged. -/
def Calibration.load {δ : Type} (fs : String → Option δ)
    (self : Calibration δ) (calibration_file : Option String) :
    Calibration δ × List String :=
  let file := calibration_file.getD self.calibration_file
  match fs file with
  | some d => ({ self with calibration_data := d }, [])
  | none => (self, ["calibration data file not found"])

/-- **C8** (confirmed): when the (defaulted) file path cannot be opened,
`Calibration.load` returns — no exception reaches the caller, since the
embedding is a total function — with `calibration_data` unchanged and the
error message printed. -/
theorem calibration_load_error_unchanged {δ : Type}
    (fs : String → Option δ) (self : Calibration δ) (file : Option String)
    (h : fs (file.getD self.calibration_file) = none) :
    Calibration.load fs self file =
      (self, ["calibration data file not found"]) := by
  simp only [Calibration.load, h]

/-- Witness for `calibration_load_error_unchanged`: an empty file system and
the default path. -/
theorem calibration_load_error_unchanged_witness :
    Calibration.load (fun _ : String => (none : Option Nat))
        ⟨"calibration.dat", 0⟩ none =
      (⟨"calibration.dat", 0⟩, ["calibration data file not found"]) :=
  calibration_load_error_unchanged (fun _ => none) ⟨"calibration.dat", 0⟩
    none rfl

end ARSandbox
